import Mathlib

/-!
Verification development for the k6 result-merging engine
(`mergeLargeResults`, class `BulletproofResultMerger`).

The JavaScript source is shallowly embedded: JS numbers are modelled as
exact rationals (`ℚ`), JS objects backing the metric / status / error-type
maps as insertion-ordered association lists, and JS `undefined` as `none`.
JS truthiness quirks that the source relies on (`x || y` falling through on
`0`, `""`, `false`, `null`/`undefined`) are modelled explicitly by the
`jsOr*`/`truthy*` helpers.  `Date.now()` is abstracted as an explicit `now`
parameter; timestamp values are carried as already-parsed epoch integers
(`new Date(t).getTime()` on a truthy numeric timestamp is the identity).
Presentation-only string formatting in the source (`toFixed` suffixes such
as `'ms'` / `'%'`, `formatBytes`) is not modelled; the numeric quantities
underneath those strings are.
-/

namespace Merge

/-- JS `String.prototype.includes`: `sub` occurs somewhere in `s`.
For a non-empty needle, `s.splitOn sub` has more than one piece exactly
when `sub` occurs in `s`. -/
def jsIncludes (s sub : String) : Bool :=
  (s.splitOn sub).length != 1

/-- Truthiness of an optional JS string: present and non-empty. -/
def truthyS : Option String → Bool
  | some s => s ≠ ""
  | none => false

/-- Truthiness of an optional JS number: present and non-zero. -/
def truthyQ : Option ℚ → Bool
  | some x => x ≠ 0
  | none => false

/-- JS `a || b || dflt` over optional numbers, with `0` falsy. -/
def jsOrQ (a b : Option ℚ) (dflt : ℚ) : ℚ :=
  if truthyQ a then a.getD 0 else if truthyQ b then b.getD 0 else dflt

/-- JS `a || b` over optional strings, with `""` falsy. -/
def jsOrS (a b : Option String) : Option String :=
  if truthyS a then a else b

/-- Insertion-ordered counter map, as a JS object `{key: count}`:
increment an existing key in place, else append the key with count 1. -/
def bump : List (String × Nat) → String → List (String × Nat)
  | [], k => [(k, 1)]
  | (k', v) :: rest, k =>
    if k' = k then (k', v + 1) :: rest else (k', v) :: bump rest k

/-- Lookup in a counter map, 0 when the key is absent. -/
def getCount : List (String × Nat) → String → Nat
  | [], _ => 0
  | (k', v) :: rest, k => if k' = k then v else getCount rest k

/-- Stable insertion step for the descending-by-count sort that the source
applies to `Object.entries(this.errorsByType)` via `.sort((a,b) => b[1]-a[1])`
(a stable sort under a total preorder has a unique result, so insertion sort
models the engine's stable sort faithfully). -/
def insertDesc (x : String × Nat) : List (String × Nat) → List (String × Nat)
  | [] => [x]
  | y :: ys => if y.2 < x.2 then x :: y :: ys else y :: insertDesc x ys

/-- Stable sort of error-type entries, descending by count. -/
def sortDesc : List (String × Nat) → List (String × Nat)
  | [] => []
  | x :: xs => insertDesc x (sortDesc xs)

/-- Stable insertion step for the ascending numeric sort
`values.sort((a,b) => a-b)` used by `calculateStats`. -/
def insertAsc (x : ℚ) : List ℚ → List ℚ
  | [] => [x]
  | y :: ys => if x < y then x :: y :: ys else y :: insertAsc x ys

/-- Stable ascending sort of metric values. -/
def sortAsc : List ℚ → List ℚ
  | [] => []
  | x :: xs => insertAsc x (sortAsc xs)

/-- JS `toFixed(1)` followed by `parseFloat`, modelled as rounding a
non-negative rational to one decimal place. -/
def round1 (x : ℚ) : ℚ :=
  (⌊x * 10 + 1 / 2⌋ : ℤ) / 10

/-- Tags object attached to a k6 data point (`data.tags` / `data.data.tags`).
Only the keys the engine reads are modelled; each is `none` when absent. -/
structure Tags where
  status : Option String := none
  error_code : Option String := none
  error : Option String := none
  expected_response : Option String := none
  method : Option String := none
  url : Option String := none
  name : Option String := none
  check : Option String := none
  deriving DecidableEq, Repr, Inhabited

/-- The nested `data` payload of the standard k6 format
(`{metric, data: {value, tags, time, ...}}`). -/
structure DataInner where
  value : Option ℚ := none
  count : Option ℚ := none
  rate : Option ℚ := none
  tags : Option Tags := none
  time : Option Int := none
  deriving DecidableEq, Repr, Inhabited

/-- One successfully JSON-parsed line, with the top-level properties the
engine reads.  `extra` holds the remaining (numeric-valued) own properties,
in key order, scanned by the format-6 fallback loop.  Timestamps are stored
as epoch integers; a stored `none` also covers the falsy value `0`, which
every use site (`if (timestamp)`, `timestamp || Date.now()`) treats exactly
like an absent timestamp.  Lines whose JSON value is not an object (`null`,
numbers, strings) behave like a `Data` with every field absent: processing
either throws immediately (caught by the caller, after `validLines` was
already incremented) or touches no state. -/
structure Data where
  metric : Option String := none
  type : Option String := none
  data : Option DataInner := none
  value : Option ℚ := none
  count : Option ℚ := none
  rate : Option ℚ := none
  time : Option Int := none
  timestamp : Option Int := none
  error : Option String := none
  failed : Option Bool := none
  tags : Option Tags := none
  extra : List (String × ℚ) := []
  deriving DecidableEq, Repr, Inhabited

/-- One raw input line: whitespace-only, malformed JSON, or parsed JSON. -/
inductive Line where
  | empty : Line
  | malformed : Line
  | json : Data → Line
  deriving DecidableEq, Repr, Inhabited

/-- State of one input path on disk, as seen by `mergeFiles`:
absent (`fs.existsSync` false, skipped with a warning), present but
unreadable (`statSync`/stream read throws, rejecting the merge promise),
or readable with its list of lines. -/
inductive FileSt where
  | absent : FileSt
  | unreadable : FileSt
  | readable : List Line → FileSt
  deriving DecidableEq, Repr, Inhabited

/-- An entry of `this.metrics[name]`: `{ count, rate, values: [] }`. -/
structure MetricEntry where
  count : Nat := 0
  rate : ℚ := 0
  values : List ℚ := []
  deriving DecidableEq, Repr, Inhabited

/-- A record pushed onto `this.errors`. -/
structure ErrorRec where
  timestamp : Int
  value : ℚ
  tags : Tags
  errorType : String
  statusCode : Option String := none
  errorCode : Option String := none
  method : Option String := none
  url : Option String := none
  error : Option String := none
  deriving DecidableEq, Repr, Inhabited

/-- A record pushed onto `this.checks`. -/
structure CheckRec where
  timestamp : Int
  passed : Bool
  checkName : Option String
  deriving DecidableEq, Repr, Inhabited

/-- The mutable state of a `BulletproofResultMerger` instance. -/
structure St where
  metrics : List (String × MetricEntry) := []
  errors : List ErrorRec := []
  checks : List CheckRec := []
  requestsByStatus : List (String × Nat) := []
  errorsByType : List (String × Nat) := []
  testStartTime : Option Int := none
  testEndTime : Option Int := none
  totalFiles : Nat := 0
  processedFiles : Nat := 0
  totalLines : Nat := 0
  validLines : Nat := 0
  deriving DecidableEq, Repr, Inhabited

/-- A fresh merger instance (`new BulletproofResultMerger()`, aggregation
state only; the static `testConfiguration` block is not modelled). -/
def initState : St := {}

/-- `categorizeError(tags)`: first matching rule wins. -/
def categorizeError (t : Tags) : String :=
  if truthyS t.error && jsIncludes (t.error.getD "") "timeout" then "timeout"
  else if t.error_code = some "1050" || t.error = some "request timeout" then "request_timeout"
  else if (t.error_code = some "1502" : Bool) then "bad_gateway"
  else if (t.status = some "502" : Bool) then "server_error_502"
  else if (t.status = some "500" : Bool) then "server_error_500"
  else if (t.status = some "404" : Bool) then "not_found_404"
  else if (t.status = some "0" : Bool) then "connection_failed"
  else if (t.expected_response = some "false" : Bool) then "unexpected_response"
  else "other_error"

/-- The argument handed to `processMetric`: only the `value`/`count`/`rate`
properties are ever read from it. -/
structure Payload where
  value : Option ℚ := none
  count : Option ℚ := none
  rate : Option ℚ := none
  deriving DecidableEq, Repr, Inhabited

/-- The value `processMetric` extracts from its payload:
`value` if defined, else `count`, else nothing.  (The `typeof === 'number'`
branch would need a bare-number payload, which no modelled call site
produces.) -/
def extractVal (p : Payload) : Option ℚ :=
  match p.value with
  | some v => some v
  | none => p.count

/-- One `processMetric` call applied to a metric entry: push the extracted
value and bump `count` when a value is present; accumulate `rate` when the
payload carries one. -/
def applyPayload (e : MetricEntry) (p : Payload) : MetricEntry :=
  let e1 := match extractVal p with
    | some v => { e with values := e.values ++ [v], count := e.count + 1 }
    | none => e
  match p.rate with
  | some r => { e1 with rate := e1.rate + r }
  | none => e1

/-- `processMetric(name, payload)` on the metrics object: create the entry
`{count: 0, rate: 0, values: []}` if absent, then apply the payload. -/
def setMetric : List (String × MetricEntry) → String → Payload → List (String × MetricEntry)
  | [], k, p => [(k, applyPayload {} p)]
  | (k', e) :: rest, k, p =>
    if k' = k then (k', applyPayload e p) :: rest
    else (k', e) :: setMetric rest k p

/-- JS truthiness of `data.metric`: present and non-empty. -/
def metricTruthy (d : Data) : Bool := truthyS d.metric

/-- The object-key string for `this.metrics[data.metric]`: an undefined
metric property coerces to the key `"undefined"`. -/
def metricKey (d : Data) : String := d.metric.getD "undefined"

/-- Payload seen by `processMetric` when handed the whole data point
(formats 3, 4, 5). -/
def payloadOfData (d : Data) : Payload := ⟨d.value, d.count, d.rate⟩

/-- Payload seen by `processMetric` when handed `data.data` (format 1). -/
def payloadOfInner (i : DataInner) : Payload := ⟨i.value, i.count, i.rate⟩

/-- The `processMetric` calls a data point triggers, in order, mirroring the
six-way `if/else` format dispatch of `processDataPoint`. -/
def routedCalls (d : Data) : List (String × Payload) :=
  if metricTruthy d && d.data.isSome then
    [(metricKey d, payloadOfInner (d.data.getD {}))]
  else if metricTruthy d && d.value.isSome then
    [(metricKey d, { value := d.value })]
  else if d.type = some "Point" && metricTruthy d then
    [(metricKey d, payloadOfData d)]
  else if d.type = some "Metric" then
    [(metricKey d, payloadOfData d)]
  else if metricTruthy d then
    [(metricKey d, payloadOfData d)]
  else
    d.extra.filterMap fun kv =>
      if jsIncludes kv.1 "http_req" || jsIncludes kv.1 "iteration"
          || jsIncludes kv.1 "vus" || jsIncludes kv.1 "data_" then
        some (kv.1, ({ value := some kv.2 } : Payload))
      else none

/-- `data.data?.time || data.time || data.timestamp`, with `0` falsy;
`none` stands for a falsy result (absent or `0`), which every consumer
treats identically. -/
def extractTime (d : Data) : Option Int :=
  let pick : Option Int → Bool := fun o => match o with
    | some t => t ≠ 0
    | none => false
  if pick (d.data.bind (·.time)) then d.data.bind (·.time)
  else if pick d.time then d.time
  else if pick d.timestamp then d.timestamp
  else none

/-- `data.data?.tags || data.tags || {}` (objects are always truthy). -/
def tagsOf (d : Data) : Tags :=
  ((d.data.bind (·.tags)).orElse fun _ => d.tags).getD {}

/-- `tags.status || 'unknown'` (empty string is falsy). -/
def statusOf (t : Tags) : String :=
  match t.status with
  | some s => if s = "" then "unknown" else s
  | none => "unknown"

/-- `data.data?.value || data.value || 0` (a `0` value falls through). -/
def failureValueOf (d : Data) : ℚ := jsOrQ (d.data.bind (·.value)) d.value 0

/-- Does this data point enter the failure branch
(`metric === 'http_req_failed'` with extracted failure value `1`)? -/
def failCond (d : Data) : Bool :=
  d.metric = some "http_req_failed" && failureValueOf d = 1

/-- Does this data point bump the status histogram?  Both the
`http_req_failed` branch and the `http_reqs` branch do, and the two are
mutually exclusive. -/
def statusCond (d : Data) : Bool :=
  d.metric = some "http_req_failed" || d.metric = some "http_reqs"

/-- Does this data point enter the generic error branch
(`data.error || data.failed` truthy)? -/
def genericCond (d : Data) : Bool :=
  truthyS d.error || d.failed = some true

/-- The error records a data point pushes onto `this.errors`:
at most one from the failure branch, then at most one from the generic
branch, in source order. -/
def errRecs (now : Int) (d : Data) : List ErrorRec :=
  let t := tagsOf d
  let ts := (extractTime d).getD now
  (if failCond d then
    [{ timestamp := ts
       value := failureValueOf d
       tags := t
       errorType := categorizeError t
       statusCode := t.status
       errorCode := t.error_code
       method := t.method
       url := jsOrS t.url t.name
       error := t.error }]
  else []) ++
  (if genericCond d then
    [{ timestamp := ts
       value := jsOrQ (d.data.bind (·.value)) d.value 1
       tags := (d.data.bind (·.tags)).orElse (fun _ => d.tags) |>.getD {}
       errorType := "generic_error" }]
  else [])

/-- The check records a data point pushes onto `this.checks`. -/
def checkRecs (now : Int) (d : Data) : List CheckRec :=
  if d.metric = some "checks" then
    [{ timestamp := (extractTime d).getD now
       passed := jsOrQ (d.data.bind (·.value)) d.value 0 = 1
       checkName := (tagsOf d).check }]
  else []

/-- Timeline update for `testStartTime`: set when currently falsy
(`null`, or the never-stored `0`) or when the new time is smaller. -/
def updStart (cur : Option Int) (t : Int) : Option Int :=
  match cur with
  | none => some t
  | some c => if c = 0 ∨ t < c then some t else some c

/-- Timeline update for `testEndTime`. -/
def updEnd (cur : Option Int) (t : Int) : Option Int :=
  match cur with
  | none => some t
  | some c => if c = 0 ∨ c < t then some t else some c

/-- `processDataPoint(data)`.  The source's sequential mutations touch
pairwise disjoint fields (the two `requestsByStatus` bumps are guarded by
mutually exclusive metric names), so they are expressed as one record
update. -/
def processDataPoint (now : Int) (s : St) (d : Data) : St :=
  { s with
    testStartTime := match extractTime d with
      | some t => updStart s.testStartTime t
      | none => s.testStartTime
    testEndTime := match extractTime d with
      | some t => updEnd s.testEndTime t
      | none => s.testEndTime
    metrics := (routedCalls d).foldl (fun m c => setMetric m c.1 c.2) s.metrics
    requestsByStatus :=
      if statusCond d then bump s.requestsByStatus (statusOf (tagsOf d))
      else s.requestsByStatus
    errorsByType :=
      if failCond d then bump s.errorsByType (categorizeError (tagsOf d))
      else s.errorsByType
    errors := s.errors ++ errRecs now d
    checks := s.checks ++ checkRecs now d }

/-- One iteration of the `for await (const line of rl)` loop in
`processFile`: count the line; skip whitespace-only lines; on a parsed
line, count it valid and process it; malformed lines are silently skipped. -/
def processLine (now : Int) (s : St) (l : Line) : St :=
  match l with
  | .empty => { s with totalLines := s.totalLines + 1 }
  | .malformed => { s with totalLines := s.totalLines + 1 }
  | .json d =>
    processDataPoint now
      { s with totalLines := s.totalLines + 1, validLines := s.validLines + 1 } d

/-- `processFile`: fold the file's lines, then `this.processedFiles++`. -/
def processFile (now : Int) (s : St) (lines : List Line) : St :=
  let s' := lines.foldl (processLine now) s
  { s' with processedFiles := s'.processedFiles + 1 }

/-- The file loop of `mergeFiles`: set `totalFiles`, then process each
input sequentially; a missing file is skipped with a warning; a file that
exists but cannot be read throws, rejecting the whole merge. -/
def mergeFilesE (now : Int) (files : List FileSt) : Except Unit St :=
  files.foldlM
    (fun s f =>
      match f with
      | .absent => Except.ok s
      | .unreadable => Except.error ()
      | .readable ls => Except.ok (processFile now s ls))
    { initState with totalFiles := files.length }

/-- The statistics block returned by `calculateStats`. -/
structure Stats where
  avg : ℚ := 0
  min : ℚ := 0
  max : ℚ := 0
  p90 : ℚ := 0
  p95 : ℚ := 0
  p99 : ℚ := 0
  deriving DecidableEq, Repr, Inhabited

/-- `calculateStats(values)`: zeros on an empty array, otherwise sort
ascending and index percentiles at `floor(count * p)` (the binary-float
factors `0.9`/`0.95`/`0.99` are modelled as exact rationals). -/
def calculateStats (values : List ℚ) : Stats :=
  if values.length = 0 then {}
  else
    let sorted := sortAsc values
    let count := sorted.length
    { avg := values.sum / count
      min := sorted.getD 0 0
      max := sorted.getD (count - 1) 0
      p90 := sorted.getD (count * 9 / 10) 0
      p95 := sorted.getD (count * 95 / 100) 0
      p99 := sorted.getD (count * 99 / 100) 0 }

/-- Lookup of `this.metrics[name]`. -/
def lookupMetric : List (String × MetricEntry) → String → Option MetricEntry
  | [], _ => none
  | (k', e) :: rest, k => if k' = k then some e else lookupMetric rest k

/-- `calculatedMetrics[name]` derived stats: real stats when the entry has
values, zeros when it is empty or absent (`?.field || 0`). -/
def statsFor (s : St) (name : String) : Stats :=
  match lookupMetric s.metrics name with
  | some e => if 0 < e.values.length then calculateStats e.values else {}
  | none => {}

/-- `calculatedMetrics[name]?.count || 0`. -/
def metricCount (s : St) (name : String) : Nat :=
  ((lookupMetric s.metrics name).map (·.count)).getD 0

/-- Number of stored `values` for a metric (0 when the metric is absent). -/
def metricValuesLen (s : St) (name : String) : Nat :=
  ((lookupMetric s.metrics name).map (·.values.length)).getD 0

/-- One row of `checks.results` in the summary. -/
structure CheckResult where
  name : String
  total : Nat
  passed : Nat
  failed : Nat
  successRatePct : ℚ
  deriving DecidableEq, Repr, Inhabited

/-- Increment (total, passed-if-passed) for check key `k` in the
`checksByName` grouping object, appending the key when new. -/
def bumpCheck : List (String × Nat × Nat) → String → Bool → List (String × Nat × Nat)
  | [], k, p => [(k, 1, if p then 1 else 0)]
  | (k', t, q) :: rest, k, p =>
    if k' = k then (k', t + 1, if p then q + 1 else q) :: rest
    else (k', t, q) :: bumpCheck rest k p

/-- The `checksByName` grouping object of `analyzeChecks`, built over the
check records in encounter order; an undefined check name coerces to the
object key `"undefined"`. -/
def groupChecks (checks : List CheckRec) : List (String × Nat × Nat) :=
  checks.foldl (fun m c => bumpCheck m (c.checkName.getD "undefined") c.passed) []

/-- Stable insertion for the ascending-by-success-rate sort of
`analyzeChecks` (the sort key is the `toFixed(1)`-rounded rate the source
re-parses with `parseFloat`). -/
def insertCheckAsc (x : CheckResult) : List CheckResult → List CheckResult
  | [] => [x]
  | y :: ys =>
    if x.successRatePct < y.successRatePct then x :: y :: ys
    else y :: insertCheckAsc x ys

/-- Stable ascending sort of check results by success rate. -/
def sortChecksAsc : List CheckResult → List CheckResult
  | [] => []
  | x :: xs => insertCheckAsc x (sortChecksAsc xs)

/-- `analyzeChecks()`: group, derive per-name rows (an empty-string key is
renamed `unnamed_check` by the `name || 'unnamed_check'` fallback), and
sort worst-first. -/
def analyzeChecks (checks : List CheckRec) : List CheckResult :=
  sortChecksAsc <|
    (groupChecks checks).map fun kv =>
      { name := if kv.1 = "" then "unnamed_check" else kv.1
        total := kv.2.1
        passed := kv.2.2
        failed := kv.2.1 - kv.2.2
        successRatePct :=
          if 0 < kv.2.1 then round1 ((kv.2.2 : ℚ) / kv.2.1 * 100) else 0 }

/-- One row of `errors.byType` in the summary. -/
structure TopError where
  type : String
  count : Nat
  percentagePct : ℚ
  deriving DecidableEq, Repr, Inhabited

/-- One row of `errors.samples` in the summary. -/
structure SampleRec where
  timestamp : Int
  type : String
  status : Option String
  method : Option String
  url : String
  error : Option String
  deriving DecidableEq, Repr, Inhabited

/-- Projection of a stored error record onto an `errors.samples` row
(`url` is truncated to 100 characters, with `'unknown'` for a falsy url). -/
def sampleOf (e : ErrorRec) : SampleRec :=
  { timestamp := e.timestamp
    type := e.errorType
    status := e.statusCode
    method := e.method
    url := match e.url with
      | some u => if u = "" then "unknown" else u.take 100
      | none => "unknown"
    error := e.error }

/-- The consolidated summary document (numeric content of the fields the
source emits; string presentation and the static configuration echo are
not modelled). -/
structure Summary where
  totalFiles : Nat
  processedFiles : Nat
  totalLines : Nat
  validLines : Nat
  totalRequests : Nat
  totalErrors : Nat
  errorRatePct : ℚ
  avgResponseTime : ℚ
  p95ResponseTime : ℚ
  p99ResponseTime : ℚ
  requestsPerSecond : ℚ
  totalIterations : Nat
  totalChecks : Nat
  checksResults : List CheckResult
  checksTotalPassed : Nat
  checksTotalFailed : Nat
  errorsTotal : Nat
  errorsByType : List TopError
  errorsByStatus : List (String × Nat)
  errorSamples : List SampleRec
  deriving DecidableEq, Repr, Inhabited

/-- `generateSummary()`. -/
def generateSummary (s : St) : Summary :=
  let totalRequests := metricCount s "http_reqs"
  let totalErrors := s.errors.length
  let errorRatePct : ℚ :=
    if 0 < totalRequests then ((totalErrors : ℚ) / totalRequests) * 100 else 0
  let durStats := statsFor s "http_req_duration"
  let durationSec : ℚ :=
    ((s.testEndTime.getD 0 - s.testStartTime.getD 0 : Int) : ℚ) / 1000
  let checkResults := analyzeChecks s.checks
  let topErrors :=
    ((sortDesc s.errorsByType).take 10).map fun kv =>
      { type := kv.1
        count := kv.2
        percentagePct :=
          if 0 < totalErrors then round1 ((kv.2 : ℚ) / totalErrors * 100)
          else 0 : TopError }
  { totalFiles := s.totalFiles
    processedFiles := s.processedFiles
    totalLines := s.totalLines
    validLines := s.validLines
    totalRequests := totalRequests
    totalErrors := totalErrors
    errorRatePct := errorRatePct
    avgResponseTime := durStats.avg
    p95ResponseTime := durStats.p95
    p99ResponseTime := durStats.p99
    requestsPerSecond :=
      if 0 < durationSec then (totalRequests : ℚ) / durationSec else 0
    totalIterations := metricCount s "iterations"
    totalChecks := s.checks.length
    checksResults := checkResults
    checksTotalPassed := (checkResults.map (·.passed)).sum
    checksTotalFailed := (checkResults.map (·.failed)).sum
    errorsTotal := s.errors.length
    errorsByType := topErrors
    errorsByStatus := s.requestsByStatus
    errorSamples := (s.errors.take 20).map sampleOf }

/-- `mergeFiles` followed by the output write: a failed write
(`fs.writeFileSync` throwing) rejects the promise. -/
def mergeRun (now : Int) (files : List FileSt) (writable : Bool) :
    Except Unit Summary := do
  let s ← mergeFilesE now files
  if writable then pure (generateSummary s) else Except.error ()

/-- The CLI `.then/.catch` tail: exit code 0 when the merge promise
resolves, 1 when it rejects (the `args.length < 2` usage check is outside
this model, which assumes a well-formed invocation). -/
def cliExit (now : Int) (files : List FileSt) (writable : Bool) : Nat :=
  match mergeRun now files writable with
  | .ok _ => 0
  | .error _ => 1

/-! ### Derived observations on the accumulator state -/

/-- Status-code histogram lookup. -/
def statusCount (s : St) (st : String) : Nat := getCount s.requestsByStatus st

/-- Error-category counter lookup. -/
def typeCount (s : St) (t : String) : Nat := getCount s.errorsByType t

/-- Total check observations recorded for one `checksByName` key. -/
def checkTotal (s : St) (name : String) : Nat :=
  s.checks.countP fun c => c.checkName.getD "undefined" = name

/-- Passed check observations recorded for one `checksByName` key. -/
def checkPassed (s : St) (name : String) : Nat :=
  s.checks.countP fun c => (c.checkName.getD "undefined" = name) && c.passed

/-! ### Per-data-point contribution functions

Each one mirrors the guard of the corresponding source branch, so that the
folded state can be characterised as a sum of independent per-line
contributions. -/

/-- Contribution of one routed `processMetric` call to the `count` (and,
equally, to the stored-values length) of metric `k`. -/
def callContrib (k : String) (c : String × Payload) : Nat :=
  if c.1 = k ∧ (extractVal c.2).isSome then 1 else 0

/-- Number of `processMetric` calls a data point routes to metric `k` that
actually carry a value (each one increments `count` and pushes one value). -/
def mcContrib (k : String) (d : Data) : Nat :=
  ((routedCalls d).map (callContrib k)).sum

/-- The status bucket a data point increments, if any: every
`http_req_failed` and every `http_reqs` sample contributes, regardless of
its failure value. -/
def statusContrib (d : Data) : Option String :=
  if statusCond d then some (statusOf (tagsOf d)) else none

/-- The error category a data point increments, if any. -/
def typeContrib (d : Data) : Option String :=
  if failCond d then some (categorizeError (tagsOf d)) else none

/-- Line-level lift of `mcContrib`. -/
def mcContribL (k : String) : Line → Nat
  | .json d => mcContrib k d
  | _ => 0

/-- Line-level lift of `errRecs`. -/
def errContribL (now : Int) : Line → List ErrorRec
  | .json d => errRecs now d
  | _ => []

/-- Line-level lift of `checkRecs`. -/
def checkContribL (now : Int) : Line → List CheckRec
  | .json d => checkRecs now d
  | _ => []

/-- Line-level lift of `statusContrib`. -/
def statusContribL : Line → Option String
  | .json d => statusContrib d
  | _ => none

/-- Line-level lift of `typeContrib`. -/
def typeContribL : Line → Option String
  | .json d => typeContrib d
  | _ => none

/-- Line-level lift of `failCond`. -/
def failCondL : Line → Bool
  | .json d => failCond d
  | _ => false

/-- Line-level lift of `genericCond`. -/
def genCondL : Line → Bool
  | .json d => genericCond d
  | _ => false

/-- The nine strings `categorizeError` can return. -/
def cat9 : List String :=
  ["timeout", "request_timeout", "bad_gateway", "server_error_502",
   "server_error_500", "not_found_404", "connection_failed",
   "unexpected_response", "other_error"]

/-! ### Concrete input fixtures -/

/-- A successful request sample (`http_reqs`, status 200). -/
def reqPoint : Data :=
  { metric := some "http_reqs"
    data := some { value := some 1, tags := some { status := some "200" } } }

/-- A failure sample (`http_req_failed` with value 1, status 500). -/
def failPoint : Data :=
  { metric := some "http_req_failed"
    data := some { value := some 1, tags := some { status := some "500" } } }

/-- A non-failing `http_req_failed` sample (value 0, status 200). -/
def failZero : Data :=
  { metric := some "http_req_failed"
    data := some { value := some 0, tags := some { status := some "200" } } }

/-- A failure sample tagged with a distinguishing url. -/
def failAt (u : String) : Data :=
  { metric := some "http_req_failed"
    data := some { value := some 1, tags := some { url := some u } } }

/-- A response-time sample. -/
def durPoint : Data :=
  { metric := some "http_req_duration"
    data := some { value := some 100, tags := some {} } }

/-- A line whose object has a truthy `error` property but no metric. -/
def genericPoint : Data := { error := some "x" }

/-! ### Association-map lemmas -/

theorem getCount_bump (m : List (String × Nat)) (k k' : String) :
    getCount (bump m k) k' = getCount m k' + (if k = k' then 1 else 0) := by
  induction m with
  | nil => simp [bump, getCount]
  | cons hd tl ih =>
    obtain ⟨a, v⟩ := hd
    simp only [bump]
    by_cases hak : a = k
    · rw [if_pos hak]
      simp only [getCount]
      by_cases hk' : a = k'
      · rw [if_pos hk', if_pos hk', if_pos (hak.symm.trans hk')]
      · rw [if_neg hk', if_neg hk', if_neg (fun h => hk' (hak.trans h))]
        omega
    · rw [if_neg hak]
      simp only [getCount]
      by_cases hk' : a = k'
      · rw [if_pos hk', if_pos hk',
          if_neg (fun (h : k = k') => hak (h.symm ▸ hk'))]
        omega
      · rw [if_neg hk', if_neg hk']
        exact ih

/-- Sum of the counts held in a counter map. -/
def sumCounts (m : List (String × Nat)) : Nat := (m.map (·.2)).sum

theorem sumCounts_bump (m : List (String × Nat)) (k : String) :
    sumCounts (bump m k) = sumCounts m + 1 := by
  induction m with
  | nil => simp [bump, sumCounts]
  | cons hd tl ih =>
    obtain ⟨a, v⟩ := hd
    simp only [bump]
    have ih' := ih
    simp only [sumCounts, List.map_cons, List.sum_cons] at ih' ⊢
    by_cases hak : a = k
    · rw [if_pos hak]
      simp only [List.map_cons, List.sum_cons]
      omega
    · rw [if_neg hak]
      simp only [List.map_cons, List.sum_cons]
      omega

theorem keys_bump_subset (m : List (String × Nat)) (k : String) :
    ∀ x ∈ (bump m k).map (·.1), x = k ∨ x ∈ m.map (·.1) := by
  induction m with
  | nil =>
    intro x hx
    simp [bump] at hx
    exact Or.inl hx
  | cons hd tl ih =>
    obtain ⟨a, v⟩ := hd
    intro x hx
    simp only [bump] at hx
    by_cases hak : a = k
    · rw [if_pos hak] at hx
      simp only [List.map_cons, List.mem_cons] at hx
      right
      simpa using hx
    · rw [if_neg hak] at hx
      simp only [List.map_cons, List.mem_cons] at hx
      rcases hx with h | h
      · right; simp [h]
      · rcases ih x h with h' | h'
        · exact Or.inl h'
        · right; simp [h']

theorem keys_bump_nodup (m : List (String × Nat)) (k : String)
    (h : (m.map (·.1)).Nodup) : ((bump m k).map (·.1)).Nodup := by
  induction m with
  | nil => simp [bump]
  | cons hd tl ih =>
    obtain ⟨a, v⟩ := hd
    simp only [List.map_cons, List.nodup_cons] at h
    simp only [bump]
    by_cases hak : a = k
    · rw [if_pos hak]
      simp only [List.map_cons, List.nodup_cons]
      exact h
    · rw [if_neg hak]
      simp only [List.map_cons, List.nodup_cons]
      refine ⟨fun hmem => ?_, ih h.2⟩
      rcases keys_bump_subset tl k a hmem with h' | h'
      · exact hak h'
      · exact h.1 h'

/-! ### Metric-map lemmas -/

theorem lookupMetric_setMetric (m : List (String × MetricEntry)) (k : String)
    (p : Payload) (k' : String) :
    lookupMetric (setMetric m k p) k' =
      if k = k' then some (applyPayload ((lookupMetric m k).getD {}) p)
      else lookupMetric m k' := by
  induction m with
  | nil =>
    simp only [setMetric, lookupMetric]
    by_cases h : k = k' <;> simp [h]
  | cons hd tl ih =>
    obtain ⟨a, e⟩ := hd
    simp only [setMetric, lookupMetric]
    by_cases hak : a = k
    · rw [if_pos hak, if_pos hak]
      simp only [lookupMetric]
      by_cases hk' : a = k'
      · rw [if_pos hk', if_pos (hak.symm.trans hk')]
        simp
      · rw [if_neg hk', if_neg (fun h => hk' (hak.trans h)), if_neg hk']
    · rw [if_neg hak, if_neg hak]
      simp only [lookupMetric]
      by_cases hk' : a = k'
      · rw [if_pos hk', if_pos hk',
          if_neg (fun (h : k = k') => hak (h.symm ▸ hk'))]
      · rw [if_neg hk', if_neg hk']
        exact ih

theorem applyPayload_count (e : MetricEntry) (p : Payload) :
    (applyPayload e p).count =
      e.count + (if (extractVal p).isSome then 1 else 0) := by
  cases hv : extractVal p <;> cases hr : p.rate <;>
    simp [applyPayload, hv, hr]

theorem applyPayload_valuesLen (e : MetricEntry) (p : Payload) :
    (applyPayload e p).values.length =
      e.values.length + (if (extractVal p).isSome then 1 else 0) := by
  cases hv : extractVal p <;> cases hr : p.rate <;>
    simp [applyPayload, hv, hr]

/-- List-level `calculatedMetrics[k]?.count || 0`. -/
def mCountL (m : List (String × MetricEntry)) (k : String) : Nat :=
  ((lookupMetric m k).map (·.count)).getD 0

/-- List-level stored-values length for metric `k`. -/
def mValsL (m : List (String × MetricEntry)) (k : String) : Nat :=
  ((lookupMetric m k).map (·.values.length)).getD 0

theorem mCountL_setMetric (m : List (String × MetricEntry)) (k : String)
    (p : Payload) (k' : String) :
    mCountL (setMetric m k p) k' = mCountL m k' + callContrib k' (k, p) := by
  simp only [mCountL, lookupMetric_setMetric]
  by_cases h : k = k'
  · subst h
    cases hm : lookupMetric m k <;>
      simp [hm, applyPayload_count, callContrib]
  · simp [h, callContrib]

theorem mValsL_setMetric (m : List (String × MetricEntry)) (k : String)
    (p : Payload) (k' : String) :
    mValsL (setMetric m k p) k' = mValsL m k' + callContrib k' (k, p) := by
  simp only [mValsL, lookupMetric_setMetric]
  by_cases h : k = k'
  · subst h
    cases hm : lookupMetric m k <;>
      simp [hm, applyPayload_valuesLen, callContrib]
  · simp [h, callContrib]

theorem mCountL_foldCalls (cs : List (String × Payload))
    (m : List (String × MetricEntry)) (k' : String) :
    mCountL (cs.foldl (fun m c => setMetric m c.1 c.2) m) k' =
      mCountL m k' + (cs.map (callContrib k')).sum := by
  induction cs generalizing m with
  | nil => simp
  | cons c cs ih =>
    obtain ⟨c1, c2⟩ := c
    simp only [List.foldl_cons, List.map_cons, List.sum_cons]
    rw [ih, mCountL_setMetric]
    omega

theorem mValsL_foldCalls (cs : List (String × Payload))
    (m : List (String × MetricEntry)) (k' : String) :
    mValsL (cs.foldl (fun m c => setMetric m c.1 c.2) m) k' =
      mValsL m k' + (cs.map (callContrib k')).sum := by
  induction cs generalizing m with
  | nil => simp
  | cons c cs ih =>
    obtain ⟨c1, c2⟩ := c
    simp only [List.foldl_cons, List.map_cons, List.sum_cons]
    rw [ih, mValsL_setMetric]
    omega

/-! ### Per-line step lemmas -/

theorem metricCount_lineStep (now : Int) (s : St) (l : Line) (k : String) :
    metricCount (processLine now s l) k = metricCount s k + mcContribL k l := by
  cases l with
  | empty => rfl
  | malformed => rfl
  | json d =>
    show mCountL ((routedCalls d).foldl (fun m c => setMetric m c.1 c.2) s.metrics) k
        = metricCount s k + mcContribL k (.json d)
    rw [mCountL_foldCalls]
    rfl

theorem metricValuesLen_lineStep (now : Int) (s : St) (l : Line) (k : String) :
    metricValuesLen (processLine now s l) k =
      metricValuesLen s k + mcContribL k l := by
  cases l with
  | empty => rfl
  | malformed => rfl
  | json d =>
    show mValsL ((routedCalls d).foldl (fun m c => setMetric m c.1 c.2) s.metrics) k
        = metricValuesLen s k + mcContribL k (.json d)
    rw [mValsL_foldCalls]
    rfl

theorem errors_lineStep (now : Int) (s : St) (l : Line) :
    (processLine now s l).errors = s.errors ++ errContribL now l := by
  cases l <;> simp [processLine, processDataPoint, errContribL]

theorem checks_lineStep (now : Int) (s : St) (l : Line) :
    (processLine now s l).checks = s.checks ++ checkContribL now l := by
  cases l <;> simp [processLine, processDataPoint, checkContribL]

theorem statusCount_lineStep (now : Int) (s : St) (l : Line) (st : String) :
    statusCount (processLine now s l) st =
      statusCount s st + (if statusContribL l = some st then 1 else 0) := by
  cases l with
  | empty => rfl
  | malformed => rfl
  | json d =>
    show getCount (if statusCond d then bump s.requestsByStatus (statusOf (tagsOf d))
          else s.requestsByStatus) st
        = statusCount s st + (if statusContribL (.json d) = some st then 1 else 0)
    cases h : statusCond d <;>
      simp [h, statusCount, statusContribL, statusContrib, getCount_bump]

theorem typeCount_lineStep (now : Int) (s : St) (l : Line) (t : String) :
    typeCount (processLine now s l) t =
      typeCount s t + (if typeContribL l = some t then 1 else 0) := by
  cases l with
  | empty => rfl
  | malformed => rfl
  | json d =>
    show getCount (if failCond d then bump s.errorsByType (categorizeError (tagsOf d))
          else s.errorsByType) t
        = typeCount s t + (if typeContribL (.json d) = some t then 1 else 0)
    cases h : failCond d <;>
      simp [h, typeCount, typeContribL, typeContrib, getCount_bump]

theorem sumTypes_lineStep (now : Int) (s : St) (l : Line) :
    sumCounts (processLine now s l).errorsByType =
      sumCounts s.errorsByType + (if failCondL l then 1 else 0) := by
  cases l with
  | empty => rfl
  | malformed => rfl
  | json d =>
    show sumCounts (if failCond d then bump s.errorsByType (categorizeError (tagsOf d))
          else s.errorsByType)
        = sumCounts s.errorsByType + (if failCondL (.json d) then 1 else 0)
    cases h : failCond d <;> simp [h, failCondL, sumCounts_bump]

theorem processedFiles_lineStep (now : Int) (s : St) (l : Line) :
    (processLine now s l).processedFiles = s.processedFiles := by
  cases l <;> rfl

theorem totalLines_lineStep (now : Int) (s : St) (l : Line) :
    (processLine now s l).totalLines = s.totalLines + 1 := by
  cases l <;> rfl

theorem validLines_lineStep (now : Int) (s : St) (l : Line) :
    (processLine now s l).validLines =
      s.validLines + (if l matches .json _ then 1 else 0) := by
  cases l <;> rfl

/-! ### Fold lemmas over a list of lines -/

theorem metricCount_foldLines (now : Int) (ls : List Line) (s : St) (k : String) :
    metricCount (ls.foldl (processLine now) s) k =
      metricCount s k + (ls.map (mcContribL k)).sum := by
  induction ls generalizing s with
  | nil => simp
  | cons l ls ih =>
    simp only [List.foldl_cons, List.map_cons, List.sum_cons]
    rw [ih, metricCount_lineStep]
    omega

theorem metricValuesLen_foldLines (now : Int) (ls : List Line) (s : St) (k : String) :
    metricValuesLen (ls.foldl (processLine now) s) k =
      metricValuesLen s k + (ls.map (mcContribL k)).sum := by
  induction ls generalizing s with
  | nil => simp
  | cons l ls ih =>
    simp only [List.foldl_cons, List.map_cons, List.sum_cons]
    rw [ih, metricValuesLen_lineStep]
    omega

theorem errors_foldLines (now : Int) (ls : List Line) (s : St) :
    (ls.foldl (processLine now) s).errors =
      s.errors ++ ls.flatMap (errContribL now) := by
  induction ls generalizing s with
  | nil => simp
  | cons l ls ih =>
    simp only [List.foldl_cons, List.flatMap_cons]
    rw [ih, errors_lineStep, List.append_assoc]

theorem checks_foldLines (now : Int) (ls : List Line) (s : St) :
    (ls.foldl (processLine now) s).checks =
      s.checks ++ ls.flatMap (checkContribL now) := by
  induction ls generalizing s with
  | nil => simp
  | cons l ls ih =>
    simp only [List.foldl_cons, List.flatMap_cons]
    rw [ih, checks_lineStep, List.append_assoc]

theorem statusCount_foldLines (now : Int) (ls : List Line) (s : St) (st : String) :
    statusCount (ls.foldl (processLine now) s) st =
      statusCount s st + ls.countP (fun l => statusContribL l = some st) := by
  induction ls generalizing s with
  | nil => simp
  | cons l ls ih =>
    simp only [List.foldl_cons]
    rw [ih, statusCount_lineStep, List.countP_cons]
    by_cases h : statusContribL l = some st <;> simp [h] <;> omega

theorem typeCount_foldLines (now : Int) (ls : List Line) (s : St) (t : String) :
    typeCount (ls.foldl (processLine now) s) t =
      typeCount s t + ls.countP (fun l => typeContribL l = some t) := by
  induction ls generalizing s with
  | nil => simp
  | cons l ls ih =>
    simp only [List.foldl_cons]
    rw [ih, typeCount_lineStep, List.countP_cons]
    by_cases h : typeContribL l = some t <;> simp [h] <;> omega

theorem sumTypes_foldLines (now : Int) (ls : List Line) (s : St) :
    sumCounts (ls.foldl (processLine now) s).errorsByType =
      sumCounts s.errorsByType + ls.countP failCondL := by
  induction ls generalizing s with
  | nil => simp
  | cons l ls ih =>
    simp only [List.foldl_cons]
    rw [ih, sumTypes_lineStep, List.countP_cons]
    by_cases h : failCondL l <;> simp [h] <;> omega

theorem processedFiles_foldLines (now : Int) (ls : List Line) (s : St) :
    (ls.foldl (processLine now) s).processedFiles = s.processedFiles := by
  induction ls generalizing s with
  | nil => rfl
  | cons l ls ih => rw [List.foldl_cons, ih, processedFiles_lineStep]

theorem totalLines_foldLines (now : Int) (ls : List Line) (s : St) :
    (ls.foldl (processLine now) s).totalLines = s.totalLines + ls.length := by
  induction ls generalizing s with
  | nil => rfl
  | cons l ls ih =>
    rw [List.foldl_cons, ih, totalLines_lineStep]
    simp only [List.length_cons]
    omega

theorem validLines_foldLines (now : Int) (ls : List Line) (s : St) :
    (ls.foldl (processLine now) s).validLines =
      s.validLines + ls.countP (fun l => l matches .json _) := by
  induction ls generalizing s with
  | nil => simp
  | cons l ls ih =>
    simp only [List.foldl_cons]
    rw [ih, validLines_lineStep, List.countP_cons]
    by_cases h : l matches .json _ <;> simp [h] <;> omega

/-! ### Range and shape lemmas for the error taxonomy -/

theorem categorizeError_mem_cat9 (t : Tags) : categorizeError t ∈ cat9 := by
  unfold categorizeError
  repeat' split
  all_goals decide

theorem errRecs_length (now : Int) (d : Data) :
    (errRecs now d).length =
      (if failCond d then 1 else 0) + (if genericCond d then 1 else 0) := by
  cases hf : failCond d <;> cases hg : genericCond d <;>
    simp [errRecs, hf, hg]

theorem errContribL_length (now : Int) (l : Line) :
    (errContribL now l).length =
      (if failCondL l then 1 else 0) + (if genCondL l then 1 else 0) := by
  cases l with
  | empty => rfl
  | malformed => rfl
  | json d =>
    simp only [errContribL, failCondL, genCondL]
    exact errRecs_length now d

theorem flatMap_errContribL_length (now : Int) (ls : List Line) :
    (ls.flatMap (errContribL now)).length =
      ls.countP failCondL + ls.countP genCondL := by
  induction ls with
  | nil => simp
  | cons l ls ih =>
    simp only [List.flatMap_cons, List.length_append, List.countP_cons, ih,
      errContribL_length]
    by_cases hf : failCondL l <;> by_cases hg : genCondL l <;>
      simp [hf, hg] <;> omega

/-! ### Sorting lemmas -/

theorem length_insertDesc (x : String × Nat) (l : List (String × Nat)) :
    (insertDesc x l).length = l.length + 1 := by
  induction l with
  | nil => rfl
  | cons y ys ih =>
    simp only [insertDesc]
    by_cases h : y.2 < x.2 <;> simp [h, ih]

theorem length_sortDesc (l : List (String × Nat)) :
    (sortDesc l).length = l.length := by
  induction l with
  | nil => rfl
  | cons x xs ih => simp [sortDesc, length_insertDesc, ih]

theorem sumCounts_insertDesc (x : String × Nat) (l : List (String × Nat)) :
    sumCounts (insertDesc x l) = x.2 + sumCounts l := by
  induction l with
  | nil => rfl
  | cons y ys ih =>
    simp only [insertDesc]
    by_cases h : y.2 < x.2
    · rw [if_pos h]
      simp only [sumCounts, List.map_cons, List.sum_cons]
    · rw [if_neg h]
      simp only [sumCounts, List.map_cons, List.sum_cons] at ih ⊢
      omega

theorem sumCounts_sortDesc (l : List (String × Nat)) :
    sumCounts (sortDesc l) = sumCounts l := by
  induction l with
  | nil => rfl
  | cons x xs ih =>
    rw [sortDesc, sumCounts_insertDesc, ih]
    simp only [sumCounts, List.map_cons, List.sum_cons]

/-! ### Well-formedness of the error-type counter map -/

/-- The error-type map has no duplicate keys and only taxonomy keys. -/
def typeMapOk (m : List (String × Nat)) : Prop :=
  ((m.map (·.1)).Nodup) ∧ ∀ x ∈ m.map (·.1), x ∈ cat9

theorem typeMapOk_bump (m : List (String × Nat)) (t : Tags)
    (h : typeMapOk m) : typeMapOk (bump m (categorizeError t)) := by
  refine ⟨keys_bump_nodup m _ h.1, fun x hx => ?_⟩
  rcases keys_bump_subset m (categorizeError t) x hx with h' | h'
  · exact h' ▸ categorizeError_mem_cat9 t
  · exact h.2 x h'

theorem typeMapOk_lineStep (now : Int) (s : St) (l : Line)
    (h : typeMapOk s.errorsByType) :
    typeMapOk (processLine now s l).errorsByType := by
  cases l with
  | empty => exact h
  | malformed => exact h
  | json d =>
    show typeMapOk (if failCond d then bump s.errorsByType (categorizeError (tagsOf d))
          else s.errorsByType)
    cases hf : failCond d
    · simpa using h
    · simpa using typeMapOk_bump _ _ h

theorem typeMapOk_foldLines (now : Int) (ls : List Line) (s : St)
    (h : typeMapOk s.errorsByType) :
    typeMapOk (ls.foldl (processLine now) s).errorsByType := by
  induction ls generalizing s with
  | nil => exact h
  | cons l ls ih =>
    rw [List.foldl_cons]
    exact ih _ (typeMapOk_lineStep now s l h)

theorem typeMapOk_length_le (m : List (String × Nat)) (h : typeMapOk m) :
    m.length ≤ 9 := by
  have hlen : (m.map (·.1)).length ≤ cat9.length :=
    (List.subperm_of_subset h.1 fun x hx => h.2 x hx).length_le
  simpa [cat9] using hlen

/-! ### Spec-style rule table for the error classifier (for claim C7) -/

/-- The classifier rules as an ordered first-match table, written from the
amended claim: explicit timeout marker, explicit known error codes, the
status buckets the code actually covers (502, 500, 404, "0"), then the
unexpected-response flag. -/
def errorRules : List ((Tags → Bool) × String) :=
  [(fun t => truthyS t.error && jsIncludes (t.error.getD "") "timeout", "timeout"),
   (fun t => t.error_code = some "1050" || t.error = some "request timeout",
     "request_timeout"),
   (fun t => t.error_code = some "1502", "bad_gateway"),
   (fun t => t.status = some "502", "server_error_502"),
   (fun t => t.status = some "500", "server_error_500"),
   (fun t => t.status = some "404", "not_found_404"),
   (fun t => t.status = some "0", "connection_failed"),
   (fun t => t.expected_response = some "false", "unexpected_response")]

/-- First-match evaluation of a rule table with `other_error` fallback. -/
def firstMatch : List ((Tags → Bool) × String) → Tags → String
  | [], _ => "other_error"
  | r :: rs, t => if r.1 t then r.2 else firstMatch rs t

/-! ### Helper facts for the claim theorems -/

theorem valuesLen_processFile_replicate (now : Int) (n : Nat) :
    metricValuesLen
      (processFile now initState (List.replicate n (Line.json durPoint)))
      "http_req_duration" = n := by
  have h : metricValuesLen
      (processFile now initState (List.replicate n (Line.json durPoint)))
      "http_req_duration"
      = metricValuesLen
        ((List.replicate n (Line.json durPoint)).foldl (processLine now) initState)
        "http_req_duration" := rfl
  rw [h, metricValuesLen_foldLines]
  have h1 : mcContribL "http_req_duration" (Line.json durPoint) = 1 := by decide
  have h0 : metricValuesLen initState "http_req_duration" = 0 := rfl
  rw [h0, List.map_replicate, h1]
  simp

/-! ## Claim theorems -/

/-- C1 (amended): the per-metric accumulator is not bounded: it stores every
observed sample, so after `n` observed `http_req_duration` samples exactly
`n` values are buffered in the metric's `values` array, with no fixed
capacity. -/
theorem C1_values_buffer_grows_linearly (n : Nat) :
    metricValuesLen
      (processFile 0 initState (List.replicate n (Line.json durPoint)))
      "http_req_duration" = n :=
  valuesLen_processFile_replicate 0 n

/-- C1 counterexample: after 100001 observed samples the per-metric buffer
holds 100001 values, exceeding the claimed fixed 100k capacity. -/
theorem C1_counterexample :
    metricValuesLen
      (processFile 0 initState (List.replicate 100001 (Line.json durPoint)))
      "http_req_duration" = 100001 ∧
    ¬ (metricValuesLen
        (processFile 0 initState (List.replicate 100001 (Line.json durPoint)))
        "http_req_duration" ≤ 100000) := by
  have h := valuesLen_processFile_replicate 0 100001
  exact ⟨h, by omega⟩

/-- C3: the summary's error rate is the percentage form of
`totalErrors / totalRequests` when `totalRequests > 0`, and `0` when
`totalRequests = 0`. -/
theorem C3_errorRate_formula (s : St) :
    (0 < (generateSummary s).totalRequests →
      (generateSummary s).errorRatePct / 100 =
        ((generateSummary s).totalErrors : ℚ) /
          ((generateSummary s).totalRequests : ℚ)) ∧
    ((generateSummary s).totalRequests = 0 →
      (generateSummary s).errorRatePct = 0) := by
  have hreq : (generateSummary s).totalRequests = metricCount s "http_reqs" := rfl
  have herr : (generateSummary s).totalErrors = s.errors.length := rfl
  have hpct : (generateSummary s).errorRatePct =
      if 0 < metricCount s "http_reqs" then
        ((s.errors.length : ℚ) / (metricCount s "http_reqs" : ℚ)) * 100
      else 0 := rfl
  constructor
  · intro h
    rw [hpct, hreq, herr]
    rw [if_pos (hreq ▸ h)]
    ring
  · intro h
    have h' : metricCount s "http_reqs" = 0 := hreq ▸ h
    rw [hpct, if_neg (by omega : ¬ 0 < metricCount s "http_reqs")]

/-- State reached after merging one request sample and one failure sample
(used to witness C3 at a positive request count). -/
def w3State : St :=
  processFile 0 initState [Line.json reqPoint, Line.json failPoint]

/-- C3 witness: at a concrete merge with one request and one failure, the
reported rate over 100 equals the error/request ratio. -/
theorem C3_errorRate_formula_witness :
    (0 < (generateSummary w3State).totalRequests) ∧
    (generateSummary w3State).errorRatePct / 100 =
      ((generateSummary w3State).totalErrors : ℚ) /
        ((generateSummary w3State).totalRequests : ℚ) :=
  ⟨by decide, (C3_errorRate_formula w3State).1 (by decide)⟩

/-- C7 (amended): the classifier evaluates its rules in the fixed priority
order timeout marker → known error codes → status buckets
{502, 500, 404, "0"} → unexpected-response flag → `other_error`; statuses
outside those four buckets (including other 5xx codes) are not
status-classified. -/
theorem C7_categorize_firstMatch (t : Tags) :
    categorizeError t = firstMatch errorRules t := by
  simp only [categorizeError, firstMatch, errorRules]

/-- C7 counterexample: a 503 response with no other marker is classified
`other_error`, not a server-error bucket. -/
theorem C7_counterexample :
    categorizeError { status := some "503" } = "other_error" ∧
    "other_error" ≠ "server_error_502" ∧
    "other_error" ≠ "server_error_500" := by decide

/-- C8 (amended): the status histogram counts one entry per
`http_req_failed` sample and one per `http_reqs` sample — each such sample
exactly once, but responses that emit both metrics are counted twice. -/
theorem C8_statusHistogram_counts (now : Int) (ls : List Line) (st : String) :
    statusCount (processFile now initState ls) st =
      ls.countP (fun l => statusContribL l = some st) := by
  have h : statusCount (processFile now initState ls) st
      = statusCount (ls.foldl (processLine now) initState) st := rfl
  have h0 : statusCount initState st = 0 := rfl
  rw [h, statusCount_foldLines, h0]
  omega

/-- State after merging a response that emits both an `http_reqs` and an
`http_req_failed` sample (used to refute C8). -/
def c8State : St :=
  processFile 0 initState [Line.json reqPoint, Line.json failZero]

/-- C8 counterexample: one response emitting both an `http_reqs` and an
`http_req_failed` sample produces a histogram total of 2 for 1 request. -/
theorem C8_counterexample :
    ((generateSummary c8State).errorsByStatus.map (fun kv => kv.2)).sum ≠
      (generateSummary c8State).totalRequests := by decide

/-- C9 (amended): `errors.samples` is the first 20 error records in
processing order (the earliest, not the most recent), and is itself capped
at 20; the underlying error list is unbounded. -/
theorem C9_samples_are_first20 (now : Int) (ls : List Line) :
    (generateSummary (processFile now initState ls)).errorSamples =
      ((ls.flatMap (errContribL now)).take 20).map sampleOf ∧
    (generateSummary (processFile now initState ls)).errorSamples.length ≤ 20 := by
  have herr : (processFile now initState ls).errors
      = ls.flatMap (errContribL now) := by
    have h : (processFile now initState ls).errors
        = (ls.foldl (processLine now) initState).errors := rfl
    rw [h, errors_foldLines]
    rfl
  constructor
  · have hs : (generateSummary (processFile now initState ls)).errorSamples
        = ((processFile now initState ls).errors.take 20).map sampleOf := rfl
    rw [hs, herr]
  · have hs : (generateSummary (processFile now initState ls)).errorSamples
        = ((processFile now initState ls).errors.take 20).map sampleOf := rfl
    rw [hs]
    simp

/-- The 21 distinct failure samples used to refute C9. -/
def pts21 : List Line :=
  (List.range 21).map fun i => Line.json (failAt ("u" ++ toString i))

set_option maxRecDepth 8192 in
/-- C9 counterexample: with 21 failures the error buffer holds 21 records
(not capped at 20) and the samples omit the most recent record `u20`. -/
theorem C9_counterexample :
    (processFile 0 initState pts21).errors.length = 21 ∧
    ¬ ((processFile 0 initState pts21).errors.length ≤ 20) ∧
    ((generateSummary (processFile 0 initState pts21)).errorSamples.map
        (fun r => r.url)).contains "u20" = false := by decide

theorem foldl_malformed (now : Int) (n : Nat) (s : St) :
    (List.replicate n Line.malformed).foldl (processLine now) s =
      { s with totalLines := s.totalLines + n } := by
  induction n generalizing s with
  | zero => rfl
  | succ n ih =>
    obtain ⟨m, e, c, rs, et, ts, te, tf, pf, tl, vl⟩ := s
    rw [List.replicate_succ, List.foldl_cons]
    have hstep : processLine now ⟨m, e, c, rs, et, ts, te, tf, pf, tl, vl⟩
        Line.malformed = ⟨m, e, c, rs, et, ts, te, tf, pf, tl + 1, vl⟩ := rfl
    rw [hstep, ih]
    simp only [St.mk.injEq, and_true, true_and]
    omega

theorem processFile_malformed (now : Int) (n : Nat) :
    processFile now { initState with totalFiles := 1 }
        (List.replicate n Line.malformed)
      = { initState with totalFiles := 1, totalLines := n, processedFiles := 1 } := by
  unfold processFile
  rw [foldl_malformed]
  simp only [initState]
  simp only [St.mk.injEq]
  norm_num

/-- C2: a single input file of `n` lines that all fail to parse merges
without error into a summary with `totalLines = n`, `validLines = 0` and
every count, rate and statistic zero (no exception, no undefined field). -/
theorem C2_all_malformed_zero_summary (n : Nat) (now : Int) :
    (mergeFilesE now [FileSt.readable (List.replicate n Line.malformed)]).map
        generateSummary
      = Except.ok
          { totalFiles := 1, processedFiles := 1, totalLines := n,
            validLines := 0, totalRequests := 0, totalErrors := 0,
            errorRatePct := 0, avgResponseTime := 0, p95ResponseTime := 0,
            p99ResponseTime := 0, requestsPerSecond := 0, totalIterations := 0,
            totalChecks := 0, checksResults := [], checksTotalPassed := 0,
            checksTotalFailed := 0, errorsTotal := 0, errorsByType := [],
            errorsByStatus := [], errorSamples := [] } := by
  have hm : mergeFilesE now [FileSt.readable (List.replicate n Line.malformed)]
      = Except.ok (processFile now { initState with totalFiles := 1 }
          (List.replicate n Line.malformed)) := rfl
  rw [hm, processFile_malformed]
  show Except.ok (generateSummary
      { initState with totalFiles := 1, totalLines := n, processedFiles := 1 }) = _
  congr 1
  simp [generateSummary, initState, statsFor, lookupMetric, metricCount,
    analyzeChecks, groupChecks, sortDesc, sortChecksAsc, calculateStats,
    Summary.mk.injEq]

/-- C4 (amended): when no line carries a bare `error`/`failed` property
(the generic-error branch never fires), the counts listed in
`errors.byType` sum exactly to `errors.total`; generic-error records break
the equality because they are counted in the total but never categorised. -/
theorem C4_byType_sums_to_total (now : Int) (ls : List Line)
    (h : ∀ l ∈ ls, genCondL l = false) :
    (((generateSummary (processFile now initState ls)).errorsByType.map
        (fun e => e.count)).sum)
      = (generateSummary (processFile now initState ls)).errorsTotal := by
  set S := processFile now initState ls with hS
  have htot : (generateSummary S).errorsTotal = S.errors.length := rfl
  -- the error list decomposes into per-line contributions
  have herr : S.errors = ls.flatMap (errContribL now) := by
    have h1 : S.errors = (ls.foldl (processLine now) initState).errors := rfl
    rw [h1, errors_foldLines]
    rfl
  have hlen : S.errors.length = ls.countP failCondL + ls.countP genCondL := by
    rw [herr, flatMap_errContribL_length]
  have hgen : ls.countP genCondL = 0 := by
    rw [List.countP_eq_zero]
    intro l hl
    simp [h l hl]
  -- the byType map is well-formed, so the top-10 slice keeps every entry
  have hok : typeMapOk S.errorsByType := by
    have h1 : S.errorsByType = (ls.foldl (processLine now) initState).errorsByType := rfl
    rw [h1]
    exact typeMapOk_foldLines now ls initState
      ⟨by simp [initState], by simp [initState]⟩
  have hlen9 : (sortDesc S.errorsByType).length ≤ 10 := by
    rw [length_sortDesc]
    exact le_trans (typeMapOk_length_le _ hok) (by omega)
  have hby : (generateSummary S).errorsByType.map (fun e => e.count)
      = ((sortDesc S.errorsByType).take 10).map (·.2) := by
    have h1 : (generateSummary S).errorsByType
        = ((sortDesc S.errorsByType).take 10).map (fun kv =>
            { type := kv.1, count := kv.2
              percentagePct :=
                if 0 < S.errors.length then
                  round1 ((kv.2 : ℚ) / S.errors.length * 100)
                else 0 : TopError }) := rfl
    rw [h1, List.map_map]
    rfl
  rw [htot, hby, List.take_of_length_le hlen9, hlen, hgen]
  have hsum : ((sortDesc S.errorsByType).map (·.2)).sum
      = sumCounts S.errorsByType := sumCounts_sortDesc _
  rw [hsum]
  have hsc : sumCounts S.errorsByType = ls.countP failCondL := by
    have h1 : S.errorsByType = (ls.foldl (processLine now) initState).errorsByType := rfl
    have h0 : sumCounts initState.errorsByType = 0 := rfl
    rw [h1, sumTypes_foldLines, h0]
    omega
  rw [hsc]
  omega

/-- C4 witness: one failure sample, no generic-error line — the single
`server_error_500` entry sums to the error total 1. -/
theorem C4_byType_sums_to_total_witness :
    (((generateSummary (processFile 0 initState [Line.json failPoint])).errorsByType.map
        (fun e => e.count)).sum)
      = (generateSummary (processFile 0 initState [Line.json failPoint])).errorsTotal :=
  C4_byType_sums_to_total 0 [Line.json failPoint] (by decide)

/-- State after merging one line with a bare truthy `error` property
(used to refute C4). -/
def c4State : St := processFile 0 initState [Line.json genericPoint]

/-- C4 counterexample: a line with a truthy `error` property is pushed onto
the error list as `generic_error` without touching `errorsByType`, so the
listed byType counts sum to 0 while `errors.total` is 1. -/
theorem C4_counterexample :
    ((generateSummary c4State).errorsByType.map (fun e => e.count)).sum = 0 ∧
    (generateSummary c4State).errorsTotal = 1 ∧
    ((generateSummary c4State).errorsByType.map (fun e => e.count)).sum ≠
      (generateSummary c4State).errorsTotal := by decide

/-- C5 (amended): `totalErrors ≤ totalRequests` holds exactly for inputs
whose error-record contributions (failure samples plus generic-error
lines) do not outnumber the value-carrying `http_reqs` samples — as in
genuine k6 output, where every request emits one `http_reqs` sample; it is
not an unconditional invariant of the merger. -/
theorem C5_errors_le_requests (now : Int) (ls : List Line)
    (h : ls.countP failCondL + ls.countP genCondL
        ≤ (ls.map (mcContribL "http_reqs")).sum) :
    (generateSummary (processFile now initState ls)).totalErrors ≤
      (generateSummary (processFile now initState ls)).totalRequests := by
  set S := processFile now initState ls with hS
  have htot : (generateSummary S).totalErrors = S.errors.length := rfl
  have hreq : (generateSummary S).totalRequests = metricCount S "http_reqs" := rfl
  have herr : S.errors.length = ls.countP failCondL + ls.countP genCondL := by
    have h1 : S.errors.length = (ls.flatMap (errContribL now)).length := by
      have h2 : S.errors = (ls.foldl (processLine now) initState).errors := rfl
      rw [h2, errors_foldLines]
      rfl
    rw [h1, flatMap_errContribL_length]
  have hmc : metricCount S "http_reqs" = (ls.map (mcContribL "http_reqs")).sum := by
    have h1 : metricCount S "http_reqs"
        = metricCount (ls.foldl (processLine now) initState) "http_reqs" := rfl
    have h0 : metricCount initState "http_reqs" = 0 := rfl
    rw [h1, metricCount_foldLines, h0]
    omega
  rw [htot, hreq, herr, hmc]
  exact h

/-- C5 witness: one request sample and no failures satisfies the
hypothesis, giving 0 ≤ 1. -/
theorem C5_errors_le_requests_witness :
    (generateSummary (processFile 0 initState [Line.json reqPoint])).totalErrors ≤
      (generateSummary (processFile 0 initState [Line.json reqPoint])).totalRequests :=
  C5_errors_le_requests 0 [Line.json reqPoint] (by decide)

/-- State after merging a single failure sample with no matching
`http_reqs` sample (used to refute C5). -/
def c5State : St := processFile 0 initState [Line.json failPoint]

/-- C5 counterexample: a lone `http_req_failed` sample yields
`totalErrors = 1 > 0 = totalRequests`. -/
theorem C5_counterexample :
    (generateSummary c5State).totalErrors = 1 ∧
    (generateSummary c5State).totalRequests = 0 ∧
    ¬ ((generateSummary c5State).totalErrors ≤
        (generateSummary c5State).totalRequests) := by decide

/-! ### File-level lemmas for C6 and C10 -/

theorem metricCount_processFile (now : Int) (s : St) (ls : List Line) (k : String) :
    metricCount (processFile now s ls) k =
      metricCount s k + (ls.map (mcContribL k)).sum := by
  have h : metricCount (processFile now s ls) k
      = metricCount (ls.foldl (processLine now) s) k := rfl
  rw [h, metricCount_foldLines]

theorem errors_processFile (now : Int) (s : St) (ls : List Line) :
    (processFile now s ls).errors = s.errors ++ ls.flatMap (errContribL now) := by
  have h : (processFile now s ls).errors
      = (ls.foldl (processLine now) s).errors := rfl
  rw [h, errors_foldLines]

theorem checks_processFile (now : Int) (s : St) (ls : List Line) :
    (processFile now s ls).checks = s.checks ++ ls.flatMap (checkContribL now) := by
  have h : (processFile now s ls).checks
      = (ls.foldl (processLine now) s).checks := rfl
  rw [h, checks_foldLines]

theorem statusCount_processFile (now : Int) (s : St) (ls : List Line) (st : String) :
    statusCount (processFile now s ls) st =
      statusCount s st + ls.countP (fun l => statusContribL l = some st) := by
  have h : statusCount (processFile now s ls) st
      = statusCount (ls.foldl (processLine now) s) st := rfl
  rw [h, statusCount_foldLines]

theorem typeCount_processFile (now : Int) (s : St) (ls : List Line) (t : String) :
    typeCount (processFile now s ls) t =
      typeCount s t + ls.countP (fun l => typeContribL l = some t) := by
  have h : typeCount (processFile now s ls) t
      = typeCount (ls.foldl (processLine now) s) t := rfl
  rw [h, typeCount_foldLines]

/-- The state reached by `mergeFiles` over exactly two readable inputs,
first `lsA` then `lsB`. -/
def mergeTwo (now : Int) (lsA lsB : List Line) : St :=
  processFile now (processFile now { initState with totalFiles := 2 } lsA) lsB

/-- C6 (amended): processing two files in either order yields identical
request, error, per-category, per-status and per-check counts; only the
`errors.samples` list is order-dependent (counterexample), since it lists
the first 20 error records in processing order. -/
theorem C6_counts_commute (now : Int) (lsA lsB : List Line) :
    mergeFilesE now [FileSt.readable lsA, FileSt.readable lsB]
        = Except.ok (mergeTwo now lsA lsB) ∧
    (generateSummary (mergeTwo now lsA lsB)).totalRequests
        = (generateSummary (mergeTwo now lsB lsA)).totalRequests ∧
    (generateSummary (mergeTwo now lsA lsB)).totalErrors
        = (generateSummary (mergeTwo now lsB lsA)).totalErrors ∧
    (∀ t, typeCount (mergeTwo now lsA lsB) t = typeCount (mergeTwo now lsB lsA) t) ∧
    (∀ st, statusCount (mergeTwo now lsA lsB) st
        = statusCount (mergeTwo now lsB lsA) st) ∧
    (generateSummary (mergeTwo now lsA lsB)).totalChecks
        = (generateSummary (mergeTwo now lsB lsA)).totalChecks ∧
    (∀ name, checkTotal (mergeTwo now lsA lsB) name
          = checkTotal (mergeTwo now lsB lsA) name ∧
        checkPassed (mergeTwo now lsA lsB) name
          = checkPassed (mergeTwo now lsB lsA) name) := by
  refine ⟨rfl, ?_, ?_, ?_, ?_, ?_, ?_⟩
  · have hA : (generateSummary (mergeTwo now lsA lsB)).totalRequests
        = metricCount (mergeTwo now lsA lsB) "http_reqs" := rfl
    have hB : (generateSummary (mergeTwo now lsB lsA)).totalRequests
        = metricCount (mergeTwo now lsB lsA) "http_reqs" := rfl
    rw [hA, hB]
    unfold mergeTwo
    rw [metricCount_processFile, metricCount_processFile,
      metricCount_processFile, metricCount_processFile]
    omega
  · have hA : (generateSummary (mergeTwo now lsA lsB)).totalErrors
        = (mergeTwo now lsA lsB).errors.length := rfl
    have hB : (generateSummary (mergeTwo now lsB lsA)).totalErrors
        = (mergeTwo now lsB lsA).errors.length := rfl
    rw [hA, hB]
    unfold mergeTwo
    rw [errors_processFile, errors_processFile, errors_processFile,
      errors_processFile]
    simp only [List.length_append]
    omega
  · intro t
    unfold mergeTwo
    rw [typeCount_processFile, typeCount_processFile, typeCount_processFile,
      typeCount_processFile]
    omega
  · intro st
    unfold mergeTwo
    rw [statusCount_processFile, statusCount_processFile,
      statusCount_processFile, statusCount_processFile]
    omega
  · have hA : (generateSummary (mergeTwo now lsA lsB)).totalChecks
        = (mergeTwo now lsA lsB).checks.length := rfl
    have hB : (generateSummary (mergeTwo now lsB lsA)).totalChecks
        = (mergeTwo now lsB lsA).checks.length := rfl
    rw [hA, hB]
    unfold mergeTwo
    rw [checks_processFile, checks_processFile, checks_processFile,
      checks_processFile]
    simp only [List.length_append]
    omega
  · intro name
    constructor
    · unfold checkTotal mergeTwo
      rw [checks_processFile, checks_processFile, checks_processFile,
        checks_processFile]
      simp only [List.countP_append]
      omega
    · unfold checkPassed mergeTwo
      rw [checks_processFile, checks_processFile, checks_processFile,
        checks_processFile]
      simp only [List.countP_append]
      omega

/-- Single-error file A (used to refute the sample-list part of C6). -/
def fileA : List Line := [Line.json (failAt "uA")]

/-- Single-error file B (used to refute the sample-list part of C6). -/
def fileB : List Line := [Line.json (failAt "uB")]

set_option maxRecDepth 8192 in
/-- C6 counterexample: merging A then B and B then A produce different
`errors.samples` lists (the sample list is processing-order dependent). -/
theorem C6_counterexample :
    (mergeFilesE 0 [FileSt.readable fileA, FileSt.readable fileB]).map
        (fun s => (generateSummary s).errorSamples.map (fun r => r.url))
      = Except.ok ["uA", "uB"] ∧
    (mergeFilesE 0 [FileSt.readable fileB, FileSt.readable fileA]).map
        (fun s => (generateSummary s).errorSamples.map (fun r => r.url))
      = Except.ok ["uB", "uA"] ∧
    (["uA", "uB"] : List String) ≠ ["uB", "uA"] :=
  ⟨rfl, rfl, by decide⟩

/-- Is this input file present and readable? -/
def isReadable : FileSt → Bool
  | .readable _ => true
  | _ => false

theorem mergeFold_processed (now : Int) (files : List FileSt) (s : St)
    (h : FileSt.unreadable ∉ files) :
    ∃ s', (files.foldlM
        (fun s f =>
          match f with
          | .absent => Except.ok s
          | .unreadable => Except.error ()
          | .readable ls => Except.ok (processFile now s ls)) s)
        = Except.ok s' ∧
      s'.processedFiles = s.processedFiles + files.countP isReadable := by
  induction files generalizing s with
  | nil => exact ⟨s, rfl, by simp⟩
  | cons f fs ih =>
    have hfs : FileSt.unreadable ∉ fs := fun hm => h (List.mem_cons_of_mem _ hm)
    cases f with
    | unreadable => exact absurd (List.mem_cons_self _ _) h
    | absent =>
      rcases ih s hfs with ⟨s', h1, h2⟩
      refine ⟨s', ?_, ?_⟩
      · rw [← h1]
        rfl
      · rw [h2]
        simp [isReadable]
    | readable ls =>
      rcases ih (processFile now s ls) hfs with ⟨s', h1, h2⟩
      refine ⟨s', ?_, ?_⟩
      · rw [← h1]
        rfl
      · have hp : (processFile now s ls).processedFiles
            = s.processedFiles + 1 := by
          have h3 : (processFile now s ls).processedFiles
              = (ls.foldl (processLine now) s).processedFiles + 1 := rfl
          rw [h3, processedFiles_foldLines]
        rw [h2, hp]
        simp [isReadable]
        omega

/-- C10 (amended): when no input file is present-but-unreadable, the merge
CLI exits 0 (missing files are skipped non-fatally and excluded from
`processedFiles`, which counts exactly the readable inputs); an unreadable
existing file aborts the merge with a non-zero exit even when the output
is writable (counterexample). -/
theorem C10_exit_codes (now : Int) (files : List FileSt)
    (h : FileSt.unreadable ∉ files) :
    cliExit now files true = 0 ∧
    (mergeFilesE now files).map (fun s => s.processedFiles)
      = Except.ok (files.countP isReadable) ∧
    cliExit now files false = 1 := by
  rcases mergeFold_processed now files { initState with totalFiles := files.length } h
    with ⟨s', h1, h2⟩
  have hm : mergeFilesE now files = Except.ok s' := h1
  refine ⟨?_, ?_, ?_⟩
  · show (match mergeRun now files true with
      | .ok _ => 0
      | .error _ => 1) = 0
    have hr : mergeRun now files true = Except.ok (generateSummary s') := by
      unfold mergeRun
      rw [hm]
      rfl
    rw [hr]
  · rw [hm]
    show Except.ok s'.processedFiles = Except.ok (files.countP isReadable)
    congr 1
    have h0 : ({ initState with totalFiles := files.length } : St).processedFiles
        = 0 := rfl
    rw [h2, h0]
    omega
  · show (match mergeRun now files false with
      | .ok _ => 0
      | .error _ => 1) = 1
    have hr : mergeRun now files false = Except.error () := by
      unfold mergeRun
      rw [hm]
      rfl
    rw [hr]

/-- C10 witness: one readable and one missing input — exit code 0 and
`processedFiles = 1` when the output is writable, exit code 1 when the
output write fails. -/
theorem C10_exit_codes_witness :
    cliExit 0 [FileSt.readable [], FileSt.absent] true = 0 ∧
    (mergeFilesE 0 [FileSt.readable [], FileSt.absent]).map
        (fun s => s.processedFiles)
      = Except.ok ([FileSt.readable [], FileSt.absent].countP isReadable) ∧
    cliExit 0 [FileSt.readable [], FileSt.absent] false = 1 :=
  C10_exit_codes 0 [FileSt.readable [], FileSt.absent] (by decide)

/-- C10 counterexample: a present-but-unreadable input makes the CLI exit 1
even though the output is writable. -/
theorem C10_counterexample : cliExit 0 [FileSt.unreadable] true = 1 := by decide

end Merge
